import Mathlib

/-!
Verification of the shadow-clone synchronization subsystem of
rounded-window-corners (GNOME shell extension).

The development shallowly embeds the two source variants:
* `src/src/extension.ts`  — primary variant (namespace-free definitions below);
* `src/unnamed/part_000`  — alternative variant (definitions suffixed `_p000`).

Pixel coordinates and scale factors are embedded as rationals (the source
computes with JS numbers; the specified formulas are exact arithmetic).
`constants.SHADOW_PADDING` and `UI.WindowScaleFactor` live outside the
embedded files, so every geometry function takes them as explicit
parameters (`shadow_padding`, `window_scale_factor`).
-/

/-- A Clutter allocation box: origin and size, as set by
`box.set_origin` / `box.set_size`. -/
structure Box where
  x : ℚ
  y : ℚ
  width : ℚ
  height : ℚ
deriving DecidableEq, Repr

/-- A `Meta.Rectangle` as returned by `win.get_frame_rect()` /
`win.get_buffer_rect()`. -/
structure Rect where
  x : ℚ
  y : ℚ
  width : ℚ
  height : ℚ
deriving DecidableEq, Repr

/-- The frame-rect data of `meta_win` that
`OverviewShadowActor.vfunc_allocate` (extension.ts:362-384) reads. -/
structure WinGeom where
  frame_width : ℚ
  frame_height : ℚ
deriving DecidableEq, Repr

/-- Inputs read by `OverviewShadowActor.vfunc_allocate` in
`src/src/extension.ts` lines 353-388: the `_leavingOverview` flag, the two
candidate allocation boxes, the (possibly absent) `Meta.Window`, and the
window's HiDPI scale factor (`UI.WindowScaleFactor`, external). -/
structure OverviewAllocInput where
  leaving_overview : Bool
  windowContainer_box : Box
  preview_box : Box
  meta_win : Option WinGeom
  window_scale_factor : ℚ
deriving DecidableEq, Repr

/-- extension.ts:358-360 — `windowContainerBox` is the window container's
allocation box when leaving the overview, else the preview's own box. -/
def chosenContainerBox (inp : OverviewAllocInput) : Box :=
  if inp.leaving_overview then inp.windowContainer_box else inp.preview_box

/-- extension.ts:374-377 — shadow padding in container space:
`constants.SHADOW_PADDING * container_scaled * UI.WindowScaleFactor(meta_win)`. -/
def overviewPaddings (shadow_padding container_scaled window_scale_factor : ℚ) : ℚ :=
  shadow_padding * container_scaled * window_scale_factor

/-- `OverviewShadowActor.vfunc_allocate` of `src/src/extension.ts`
lines 353-388.  Returns `none` when the early return fires
(`get_meta_window()` is null), else the box set by
`box.set_origin(-paddings, -paddings)` and
`box.set_size(w + 2*paddings, h + 2*paddings)` where `w`,`h` are the
chosen container box's dimensions and
`container_scaled = w / frame_rect.width`. -/
def OverviewShadowActor.vfunc_allocate (shadow_padding : ℚ)
    (inp : OverviewAllocInput) : Option Box :=
  match inp.meta_win with
  | none => none
  | some g =>
    let windowContainerBox := chosenContainerBox inp
    let container_scaled := windowContainerBox.width / g.frame_width
    let paddings :=
      overviewPaddings shadow_padding container_scaled inp.window_scale_factor
    some
      { x := -paddings
        y := -paddings
        width := windowContainerBox.width + 2 * paddings
        height := windowContainerBox.height + 2 * paddings }

/-- The data of the source `Meta.Window` read by the alternative variant's
allocator (`src/unnamed/part_000` lines 413-456). -/
structure WinGeomP000 where
  is_attached_dialog : Bool
  frame_width : ℚ
  frame_height : ℚ
  buf_width : ℚ
  buf_height : ℚ
deriving DecidableEq, Repr

/-- Inputs of `OverviewShadowActor.vfunc_allocate` in
`src/unnamed/part_000` lines 413-456: the target clone's source window
(absent when `get_meta_window()` is null), whether `get_parent()` is
non-null, the target clone's position, the parent container's size, and
the external HiDPI scale factor. -/
structure P000AllocInput where
  source_meta_win : Option WinGeomP000
  window_container_present : Bool
  targetX : ℚ
  targetY : ℚ
  container_width : ℚ
  container_height : ℚ
  window_scale_factor : ℚ
deriving DecidableEq, Repr

/-- `OverviewShadowActor.vfunc_allocate` of `src/unnamed/part_000`
lines 413-456.  Early-returns (`none`) when the meta window or parent
container is missing, and when `meta_win.is_attached_dialog()`; otherwise
computes `scale = min(container.w/frame.w, container.h/frame.h)` and the
box of lines 437-453. -/
def OverviewShadowActor.vfunc_allocate_p000 (shadow_padding : ℚ)
    (inp : P000AllocInput) : Option Box :=
  match inp.source_meta_win with
  | none => none
  | some g =>
    if !inp.window_container_present then none
    else if g.is_attached_dialog then none
    else
      let scale := min (inp.container_width / g.frame_width)
        (inp.container_height / g.frame_height)
      let paddings := shadow_padding * scale * inp.window_scale_factor
      let x := inp.targetX + (g.buf_width - g.frame_width) / 2 * scale
      let y := inp.targetY + (g.buf_height - g.frame_height) / 2 * scale
      let width := g.frame_width * scale - x
      let height := g.frame_height * scale - y
      some
        { x := x - paddings
          y := y - paddings
          width := width + 2 * paddings
          height := height + 2 * paddings }

/-- extension.ts:201-204 — padding for the workspace-switch shadow clone:
`constants.SHADOW_PADDING * UI.WindowScaleFactor(win)` (identical in
part_000 lines 265-267). -/
def wsPaddings (shadow_padding window_scale_factor : ℚ) : ℚ :=
  shadow_padding * window_scale_factor

/-- The shadow-clone box assigned in
`WorkspaceAnimationController._prepareWorkspaceSwitch`
(extension.ts:205-212, identically part_000:269-276):
`width = frame.width + paddings*2`, `height = frame.height + paddings*2`,
`x = clone.x + frame.x - actor.x - paddings`,
`y = clone.y + frame.y - actor.y - paddings`. -/
def workspace_switch_shadow_box (shadow_padding window_scale_factor : ℚ)
    (frame_rect : Rect) (cloneX cloneY actorX actorY : ℚ) : Box :=
  let paddings := wsPaddings shadow_padding window_scale_factor
  { x := cloneX + frame_rect.x - actorX - paddings
    y := cloneY + frame_rect.y - actorY - paddings
    width := frame_rect.width + paddings * 2
    height := frame_rect.height + paddings * 2 }

/-- A concrete overview-allocation input used to exercise theorems on
explicit values: a live (non-leaving) 2×3 preview of a 4×5-frame window
at unit scale factor. -/
def sampleOverviewInput : OverviewAllocInput :=
  ⟨false, ⟨0, 0, 0, 0⟩, ⟨0, 0, 2, 3⟩, some ⟨4, 5⟩, 1⟩

/-- A concrete frame rectangle used to exercise theorems on explicit
values. -/
def sampleFrame : Rect := ⟨0, 0, 6, 7⟩

/-- Clutter `insert_child_below(child, sibling)` on a bottom-first
z-order children list: the child is inserted immediately below (before)
the sibling; when the sibling is not among the children nothing is
attached. -/
def insert_child_below (child sibling : Nat) : List Nat → List Nat
  | [] => []
  | x :: xs =>
    if x = sibling then child :: x :: xs
    else x :: insert_child_below child sibling xs

/-- Clutter `set_child_below_sibling(child, sibling)` as used by the
`restacked` handler (extension.ts:169-173): the child is moved from its
current position to immediately below the sibling. -/
def set_child_below_sibling (child sibling : Nat)
    (children : List Nat) : List Nat :=
  insert_child_below child sibling (children.erase child)

/-- `stackedDirectlyBelow s c children`: actor `s` sits immediately below
actor `c` in the bottom-first z-order list. -/
def stackedDirectlyBelow (s c : Nat) : List Nat → Bool
  | x :: y :: rest => (x == s && y == c) || stackedDirectlyBelow s c (y :: rest)
  | _ => false

/-- The per-preview state that the patched `WindowPreview._addWindow`
(extension.ts:86-147) manipulates: the preview's children in bottom-first
z-order (with `windowContainer` among them), whether the first child of
the window container carries the `LinearFilterEffect`, and whether the
destroy cleanup is connected. -/
structure PreviewState where
  children : List Nat
  firstChildHasLinearFilter : Bool
  destroyConnected : Bool
deriving DecidableEq, Repr

/-- The branch data read by the patched `_addWindow`
(extension.ts:95-121): whether `stackMsg()` returned undefined, whether
the stack mentions `_updateAttachedDialogs` or `addDialog` (the
attached-dialog call path), the presence of
`__rwc_rounded_window_info?.shadow`, the result of
`UI.ShouldHasRoundedCorners`, and the identity of the
`OverviewShadowActor` that would be created. -/
structure AddWindowArgs where
  stackUndefined : Bool
  fromDialogPath : Bool
  hasShadow : Bool
  shouldHaveRoundedCorners : Bool
  shadowCloneId : Nat
deriving DecidableEq, Repr

/-- The patched `WindowPreview._addWindow` of `src/src/extension.ts`
lines 86-147, after the delegated call of the original method:
early-returns on the stack check (line 96-102) and on the
rounded-corners/shadow check (line 106-121); otherwise applies the linear
filter to the first child, creates the `OverviewShadowActor` and inserts
it below `windowContainer` (line 137), and connects the destroy cleanup
(line 140). -/
def addWindow (args : AddWindowArgs) (windowContainer : Nat)
    (st : PreviewState) : PreviewState :=
  if args.stackUndefined || args.fromDialogPath then st
  else if !(args.shouldHaveRoundedCorners && args.hasShadow) then st
  else
    { children :=
        insert_child_below args.shadowCloneId windowContainer st.children
      firstChildHasLinearFilter := true
      destroyConnected := true }

/-- One `workspace._windowRecords` entry as the `restacked` handler
(extension.ts:160-176) sees it: the window clone and the `_shadow_clone`
reference stashed on it (absent when no shadow clone was created for that
window). -/
structure RestackRecord where
  clone : Nat
  shadow_clone : Option Nat
deriving DecidableEq, Repr

/-- One iteration of the `restacked` handler loop (extension.ts:163-174):
when the record carries a shadow clone,
`workspace.set_child_below_sibling(shadow, clone)`. -/
def restackStep (children : List Nat) (r : RestackRecord) : List Nat :=
  match r.shadow_clone with
  | some s => set_child_below_sibling s r.clone children
  | none => children

/-- The `restacked` signal handler registered in
`_prepareWorkspaceSwitch` (extension.ts:160-176): every record's shadow
clone is re-stacked immediately below its host clone, in record order. -/
def restackedHandler (records : List RestackRecord)
    (children : List Nat) : List Nat :=
  records.foldl restackStep children

/-- The per-window state that the primary variant's preview-destroy
handler (extension.ts:140-146) manipulates: whether the
`OverviewShadowActor` clone is alive, whether the window container's
first child still carries effects, whether the window's own
rounded-corner rendering effect is enabled, and whether signals are still
connected on the preview. -/
structure OverviewWindowState where
  shadow_clone_alive : Bool
  firstChild_has_effects : Bool
  rounded_effect_enabled : Bool
  signals_connected : Bool
deriving DecidableEq, Repr

/-- The `destroy` handler connected in the primary variant's `_addWindow`
(extension.ts:140-146): `shadow_clone.destroy()`,
`firstChild?.clear_effects()`, `c.disconnect_all(this)`.  The window's
own rounded-corner effect is not touched; this variant never disabled
it. -/
def previewDestroyHandler (st : OverviewWindowState) : OverviewWindowState :=
  { shadow_clone_alive := false
    firstChild_has_effects := false
    rounded_effect_enabled := st.rounded_effect_enabled
    signals_connected := false }

/-- The per-window state the alternative variant's clone-destroy handler
(part_000:199-210) manipulates. -/
structure P000WindowState where
  shadow_actor_alive : Bool
  clone_has_effects : Bool
  rounded_effect_enabled : Bool
  signals_connected : Bool
deriving DecidableEq, Repr

/-- The `destroy` handler connected on the window clone in the
alternative variant's `_addWindow` (part_000:199-210): the
`shadow_actor.destroy()` call is commented out in the source, so the
shadow actor stays alive; the clone's effects are cleared; the window's
own rounded-corner effect is re-enabled only inside
`if (overview._overview.controls._workspacesDisplay._leavingOverview)`;
the clone's signals are disconnected. -/
def cloneDestroyHandler_p000 (leavingOverview : Bool)
    (st : P000WindowState) : P000WindowState :=
  { shadow_actor_alive := st.shadow_actor_alive
    clone_has_effects := false
    rounded_effect_enabled :=
      if leavingOverview then true else st.rounded_effect_enabled
    signals_connected := false }

/-- One `workspace._windowRecords` entry as `_prepareWorkspaceSwitch`
(extension.ts:182-245) reads it: presence of
`__rwc_rounded_window_info?.shadow` on the window actor, the optional
`enabled` flag of `UI.get_rounded_corners_effect(actor)` (absent when the
actor carries no such effect), the window's frame rect, the clone and
actor positions, and the window's scale factor. -/
structure WsWindowRecord where
  hasShadow : Bool
  roundedCornersEffectEnabled : Option Bool
  frame_rect : Rect
  cloneX : ℚ
  cloneY : ℚ
  actorX : ℚ
  actorY : ℚ
  window_scale_factor : ℚ
deriving DecidableEq, Repr

/-- The guard `if (shadow && enabled)` of extension.ts:192. -/
def qualifiesForShadowClone (r : WsWindowRecord) : Bool :=
  r.hasShadow && r.roundedCornersEffectEnabled == some true

/-- The body of the per-record loop of `_prepareWorkspaceSwitch`
(extension.ts:182-245): when the guard holds, a `Clutter.Clone` of the
shadow actor is created and given the `workspace_switch_shadow_box`
geometry; otherwise nothing is created. -/
def prepareRecordShadowClone (shadow_padding : ℚ)
    (r : WsWindowRecord) : Option Box :=
  if qualifiesForShadowClone r then
    some (workspace_switch_shadow_box shadow_padding r.window_scale_factor
      r.frame_rect r.cloneX r.cloneY r.actorX r.actorY)
  else none

/-- The shadow clones created for one workspace group during the
`Preparing` phase. -/
def prepareGroupShadowClones (shadow_padding : ℚ)
    (records : List WsWindowRecord) : List Box :=
  records.filterMap (prepareRecordShadowClone shadow_padding)

/-- A workspace group with three windows of which exactly the first two
are rounded with shadows and enabled effects. -/
def sampleWsGroup : List WsWindowRecord :=
  [⟨true, some true, ⟨0, 0, 100, 50⟩, 1, 2, 3, 4, 1⟩,
   ⟨true, some true, ⟨5, 5, 200, 150⟩, 1, 2, 3, 4, 1⟩,
   ⟨false, none, ⟨0, 0, 300, 250⟩, 1, 2, 3, 4, 1⟩]

/-- A workspace-switch session of 2 monitors × 2 workspace groups, each
group holding `sampleWsGroup`'s three windows. -/
def sampleWsSession : List (List (List WsWindowRecord)) :=
  [[sampleWsGroup, sampleWsGroup], [sampleWsGroup, sampleWsGroup]]

/-- The per-workspace-group session state of a workspace-switch
animation: the `_shadow_clone` references stashed on the group's window
clones (one entry per window record), and whether the group's `restacked`
subscription (extension.ts:160-176) is still connected. -/
structure WsGroupState where
  shadow_clones : List (Option Nat)
  restackSubActive : Bool
deriving DecidableEq, Repr

/-- The clone-destruction loop of the patched `_finishWorkspaceSwitch`
(extension.ts:252-261): for every monitor, every workspace group and
every window record, `_shadow_clone?.destroy()` followed by
`delete _shadow_clone`. -/
def destroySessionShadowClones (monitors : List (List WsGroupState)) :
    List (List WsGroupState) :=
  monitors.map fun groups => groups.map fun g =>
    { g with shadow_clones := g.shadow_clones.map fun _ => none }

/-- Modelled from the spec: the delegated default
`_finishWorkspaceSwitch` teardown (gnome-shell host code, outside this
repository) destroys the switch data's workspace groups at the end of the
animation session; destroying a group fires the `destroy` handler
registered in `_prepareWorkspaceSwitch` (extension.ts:177-180), which
disconnects that group's `restacked` subscription. -/
def origFinishWorkspaceSwitch (monitors : List (List WsGroupState)) :
    List (List WsGroupState) :=
  monitors.map fun groups => groups.map fun g =>
    { g with restackSubActive := false }

/-- `WorkspaceAnimationController._finishWorkspaceSwitch` as patched by
the extension (extension.ts:250-263): destroy every session shadow clone,
then delegate to the original teardown. -/
def finishWorkspaceSwitch (monitors : List (List WsGroupState)) :
    List (List WsGroupState) :=
  origFinishWorkspaceSwitch (destroySessionShadowClones monitors)

/-- Every `_shadow_clone` reference in the session is gone. -/
def noShadowClonesLeft (monitors : List (List WsGroupState)) : Bool :=
  monitors.all fun groups => groups.all fun g =>
    g.shadow_clones.all fun c => c == none

/-- Every `restacked` subscription of the session is released. -/
def noRestackSubsLeft (monitors : List (List WsGroupState)) : Bool :=
  monitors.all fun groups => groups.all fun g => !g.restackSubActive

/-- The destroy-cascade state of one workspace-switch shadow-clone
handle: the `_shadow_clone` property on the host window clone, and how
many times the shadow-clone actor's subscriptions have been released by
destroying it. -/
structure ShadowCloneHandle where
  shadow_clone : Option Nat
  releases : Nat
deriving DecidableEq, Repr

/-- The per-record destroy cascade of `_finishWorkspaceSwitch`
(extension.ts:254-258): `_shadow_clone?.destroy()` — releasing the
destroyed actor's subscriptions once — then `delete _shadow_clone`.  The
optional chaining makes the cascade total: on an already-destroyed handle
it does nothing rather than throw. -/
def destroyCascade (h : ShadowCloneHandle) : ShadowCloneHandle :=
  match h.shadow_clone with
  | some _ => { shadow_clone := none, releases := h.releases + 1 }
  | none => h

/-- C2: the overview allocator of `src/src/extension.ts:353-388` computes,
whenever the meta window is present, padding
`p = SHADOW_PADDING * (container_width / frame_width) * scale_factor`,
origin `(-p, -p)` in the container's own coordinate space and size
`container_size + 2p`; in particular for a frame rect `(0,0,800,600)` and
a 400×300 container the container scale is `400/800 = 1/2` and the box is
`(-p, -p, 400+2p, 300+2p)` for `p = SHADOW_PADDING * (1/2) * scale_factor`. -/
theorem overview_box_formula (sp wsf fw fh : ℚ) (lv : Bool) (wcb pb : Box) :
    OverviewShadowActor.vfunc_allocate sp ⟨lv, wcb, pb, some ⟨fw, fh⟩, wsf⟩ =
      some
        { x := -(sp * ((chosenContainerBox ⟨lv, wcb, pb, some ⟨fw, fh⟩, wsf⟩).width / fw) * wsf)
          y := -(sp * ((chosenContainerBox ⟨lv, wcb, pb, some ⟨fw, fh⟩, wsf⟩).width / fw) * wsf)
          width := (chosenContainerBox ⟨lv, wcb, pb, some ⟨fw, fh⟩, wsf⟩).width +
            2 * (sp * ((chosenContainerBox ⟨lv, wcb, pb, some ⟨fw, fh⟩, wsf⟩).width / fw) * wsf)
          height := (chosenContainerBox ⟨lv, wcb, pb, some ⟨fw, fh⟩, wsf⟩).height +
            2 * (sp * ((chosenContainerBox ⟨lv, wcb, pb, some ⟨fw, fh⟩, wsf⟩).width / fw) * wsf) } ∧
    ((400 : ℚ) / 800 = 1 / 2 ∧
      OverviewShadowActor.vfunc_allocate sp
        ⟨false, ⟨0, 0, 0, 0⟩, ⟨0, 0, 400, 300⟩, some ⟨800, 600⟩, wsf⟩ =
        some
          { x := -(sp * (1 / 2) * wsf)
            y := -(sp * (1 / 2) * wsf)
            width := 400 + 2 * (sp * (1 / 2) * wsf)
            height := 300 + 2 * (sp * (1 / 2) * wsf) }) := by
  refine ⟨?_, by norm_num, ?_⟩
  · simp only [OverviewShadowActor.vfunc_allocate, overviewPaddings]
  · simp only [OverviewShadowActor.vfunc_allocate, chosenContainerBox,
      overviewPaddings, Box.mk.injEq]
    norm_num

/-- C3: `workspace_switch_box` computes padding `p = SHADOW_PADDING *
scale_factor`, origin `(clone.x + frame.x - actor.x - p,
clone.y + frame.y - actor.y - p)` and size
`(frame.width + 2p, frame.height + 2p)` (extension.ts:201-212); for a
clone at `(100,50)`, actor at `(90,40)`, frame `(90,40,1024,768)` and
scale factor 1 this is origin `(100-p, 50-p)`, size `(1024+2p, 768+2p)`. -/
theorem workspace_switch_box_formula (sp sf : ℚ) (frame_rect : Rect)
    (cloneX cloneY actorX actorY : ℚ) :
    workspace_switch_shadow_box sp sf frame_rect cloneX cloneY actorX actorY =
      { x := cloneX + frame_rect.x - actorX - sp * sf
        y := cloneY + frame_rect.y - actorY - sp * sf
        width := frame_rect.width + 2 * (sp * sf)
        height := frame_rect.height + 2 * (sp * sf) } ∧
    workspace_switch_shadow_box sp 1 ⟨90, 40, 1024, 768⟩ 100 50 90 40 =
      { x := 100 - sp
        y := 50 - sp
        width := 1024 + 2 * sp
        height := 768 + 2 * sp } := by
  constructor
  · simp only [workspace_switch_shadow_box, wsPaddings, Box.mk.injEq]
    refine ⟨?_, ?_, ?_, ?_⟩ <;> first | trivial | ring
  · simp only [workspace_switch_shadow_box, wsPaddings, Box.mk.injEq]
    refine ⟨?_, ?_, ?_, ?_⟩ <;> first | trivial | ring

/-- C10: the two geometry operations are deterministic pure functions
(equal inputs give equal boxes), on geometrically meaningful inputs
(non-negative dimensions and scale factors) the produced box has
non-negative width and height, and the padding each one uses is linear in
the supplied scale factor (doubling the scale factor doubles the padding). -/
theorem geometry_pure_props (sp cs x sf : ℚ) (inpA inpB : OverviewAllocInput)
    (frameA frameB : Rect) (cloneX cloneY actorX actorY : ℚ)
    (g : WinGeom) (hdet : inpA = inpB) (hfr : frameA = frameB)
    (hmeta : inpA.meta_win = some g) (hsp : 0 ≤ sp)
    (hcw : 0 ≤ (chosenContainerBox inpA).width)
    (hch : 0 ≤ (chosenContainerBox inpA).height)
    (hfw : 0 ≤ g.frame_width) (hwsf : 0 ≤ inpA.window_scale_factor)
    (hsf : 0 ≤ sf) (hfrw : 0 ≤ frameA.width) (hfrh : 0 ≤ frameA.height) :
    (OverviewShadowActor.vfunc_allocate sp inpA =
      OverviewShadowActor.vfunc_allocate sp inpB) ∧
    (workspace_switch_shadow_box sp sf frameA cloneX cloneY actorX actorY =
      workspace_switch_shadow_box sp sf frameB cloneX cloneY actorX actorY) ∧
    (∃ b, OverviewShadowActor.vfunc_allocate sp inpA = some b ∧
      0 ≤ b.width ∧ 0 ≤ b.height) ∧
    (0 ≤ (workspace_switch_shadow_box sp sf frameA
        cloneX cloneY actorX actorY).width ∧
      0 ≤ (workspace_switch_shadow_box sp sf frameA
        cloneX cloneY actorX actorY).height) ∧
    (overviewPaddings sp cs (2 * x) = 2 * overviewPaddings sp cs x ∧
      wsPaddings sp (2 * x) = 2 * wsPaddings sp x) := by
  have hpad : 0 ≤ overviewPaddings sp
      ((chosenContainerBox inpA).width / g.frame_width)
      inpA.window_scale_factor :=
    mul_nonneg (mul_nonneg hsp (div_nonneg hcw hfw)) hwsf
  have hwspad : 0 ≤ wsPaddings sp sf := mul_nonneg hsp hsf
  refine ⟨congrArg _ hdet, by rw [hfr], ?_, ?_, ?_⟩
  · refine ⟨⟨-(overviewPaddings sp
        ((chosenContainerBox inpA).width / g.frame_width)
        inpA.window_scale_factor),
      -(overviewPaddings sp
        ((chosenContainerBox inpA).width / g.frame_width)
        inpA.window_scale_factor),
      (chosenContainerBox inpA).width + 2 * overviewPaddings sp
        ((chosenContainerBox inpA).width / g.frame_width)
        inpA.window_scale_factor,
      (chosenContainerBox inpA).height + 2 * overviewPaddings sp
        ((chosenContainerBox inpA).width / g.frame_width)
        inpA.window_scale_factor⟩, ?_, ?_, ?_⟩
    · simp only [OverviewShadowActor.vfunc_allocate, hmeta]
    · dsimp only
      linarith
    · dsimp only
      linarith
  · constructor <;> · simp only [workspace_switch_shadow_box]; linarith
  · constructor <;> · simp only [overviewPaddings, wsPaddings]; ring

/-- C10 witness: `geometry_pure_props` applied at concrete inputs. -/
theorem geometry_pure_props_witness :
    (sampleOverviewInput = sampleOverviewInput) ∧
    (sampleFrame = sampleFrame) ∧
    (sampleOverviewInput.meta_win = some ⟨4, 5⟩) ∧
    (0 ≤ (1 : ℚ)) ∧
    (0 ≤ (chosenContainerBox sampleOverviewInput).width) ∧
    (0 ≤ (chosenContainerBox sampleOverviewInput).height) ∧
    (0 ≤ (⟨4, 5⟩ : WinGeom).frame_width) ∧
    (0 ≤ sampleOverviewInput.window_scale_factor) ∧
    (0 ≤ sampleFrame.width) ∧ (0 ≤ sampleFrame.height) ∧
    ((OverviewShadowActor.vfunc_allocate 1 sampleOverviewInput =
        OverviewShadowActor.vfunc_allocate 1 sampleOverviewInput) ∧
      (workspace_switch_shadow_box 1 1 sampleFrame 0 0 0 0 =
        workspace_switch_shadow_box 1 1 sampleFrame 0 0 0 0) ∧
      (∃ b, OverviewShadowActor.vfunc_allocate 1 sampleOverviewInput = some b ∧
        0 ≤ b.width ∧ 0 ≤ b.height) ∧
      (0 ≤ (workspace_switch_shadow_box 1 1 sampleFrame 0 0 0 0).width ∧
        0 ≤ (workspace_switch_shadow_box 1 1 sampleFrame 0 0 0 0).height) ∧
      (overviewPaddings 1 1 (2 * 1) = 2 * overviewPaddings 1 1 1 ∧
        wsPaddings 1 (2 * 1) = 2 * wsPaddings 1 1)) :=
  ⟨rfl, rfl, rfl, by decide, by decide, by decide, by decide, by decide,
    by decide, by decide,
    geometry_pure_props 1 1 1 1 sampleOverviewInput sampleOverviewInput
      sampleFrame sampleFrame 0 0 0 0 ⟨4, 5⟩ rfl rfl rfl (by decide)
      (by decide) (by decide) (by decide) (by decide) (by decide) (by decide)
      (by decide)⟩

theorem stackedDirectlyBelow_cons (s c x : Nat) (l : List Nat)
    (h : stackedDirectlyBelow s c l = true) :
    stackedDirectlyBelow s c (x :: l) = true := by
  cases l with
  | nil => simp [stackedDirectlyBelow] at h
  | cons y r => simp [stackedDirectlyBelow, h]

theorem stackedDirectlyBelow_mem (s c : Nat) (l : List Nat)
    (h : stackedDirectlyBelow s c l = true) : s ∈ l ∧ c ∈ l := by
  induction l with
  | nil => simp [stackedDirectlyBelow] at h
  | cons x xs ih =>
    cases xs with
    | nil => simp [stackedDirectlyBelow] at h
    | cons y r =>
      simp only [stackedDirectlyBelow, Bool.or_eq_true, Bool.and_eq_true,
        beq_iff_eq] at h
      rcases h with ⟨hx, hy⟩ | h
      · subst hx; subst hy
        exact ⟨List.mem_cons_self _ _, List.mem_cons_of_mem _ (List.mem_cons_self _ _)⟩
      · have := ih h
        exact ⟨List.mem_cons_of_mem _ this.1, List.mem_cons_of_mem _ this.2⟩

theorem stackedDirectlyBelow_insert_self (s c : Nat) (l : List Nat)
    (hc : c ∈ l) :
    stackedDirectlyBelow s c (insert_child_below s c l) = true := by
  induction l with
  | nil => cases hc
  | cons x xs ih =>
    by_cases hx : x = c
    · subst hx
      simp [insert_child_below, stackedDirectlyBelow]
    · have hc' : c ∈ xs := by
        rcases List.mem_cons.mp hc with h | h
        · exact absurd h.symm hx
        · exact h
      simp only [insert_child_below, if_neg hx]
      exact stackedDirectlyBelow_cons _ _ _ _ (ih hc')

theorem mem_insert_child_below_self (a sib : Nat) (l : List Nat)
    (h : sib ∈ l) : a ∈ insert_child_below a sib l := by
  induction l with
  | nil => cases h
  | cons x xs ih =>
    by_cases hx : x = sib
    · simp [insert_child_below, hx]
    · have h' : sib ∈ xs := by
        rcases List.mem_cons.mp h with hh | hh
        · exact absurd hh.symm hx
        · exact hh
      simp only [insert_child_below, if_neg hx]
      exact List.mem_cons_of_mem _ (ih h')

theorem mem_insert_child_below_of_mem (b a sib : Nat) (l : List Nat)
    (h : b ∈ l) : b ∈ insert_child_below a sib l := by
  induction l with
  | nil => cases h
  | cons x xs ih =>
    by_cases hx : x = sib
    · simp only [insert_child_below, if_pos hx]
      exact List.mem_cons_of_mem _ h
    · simp only [insert_child_below, if_neg hx]
      rcases List.mem_cons.mp h with hh | hh
      · exact hh ▸ List.mem_cons_self _ _
      · exact List.mem_cons_of_mem _ (ih hh)

theorem count_insert_child_below (a sib : Nat) (l : List Nat)
    (ha : a ∉ l) (hsib : sib ∈ l) :
    (insert_child_below a sib l).count a = 1 := by
  induction l with
  | nil => cases hsib
  | cons x xs ih =>
    have hax : a ≠ x := fun h => ha (h ▸ List.mem_cons_self _ _)
    have haxs : a ∉ xs := fun h => ha (List.mem_cons_of_mem _ h)
    by_cases hx : x = sib
    · simp only [insert_child_below, if_pos hx]
      rw [List.count_cons_self, List.count_cons_of_ne hax,
        List.count_eq_zero.mpr haxs]
    · have hsib' : sib ∈ xs := by
        rcases List.mem_cons.mp hsib with hh | hh
        · exact absurd hh.symm hx
        · exact hh
      simp only [insert_child_below, if_neg hx]
      rw [List.count_cons_of_ne hax, ih haxs hsib']

theorem stackedDirectlyBelow_insert_other (s c a sib : Nat) (l : List Nat)
    (hsib : sib ≠ c) (h : stackedDirectlyBelow s c l = true) :
    stackedDirectlyBelow s c (insert_child_below a sib l) = true := by
  induction l with
  | nil => simp [stackedDirectlyBelow] at h
  | cons x xs ih =>
    cases xs with
    | nil => simp [stackedDirectlyBelow] at h
    | cons y r =>
      simp only [stackedDirectlyBelow, Bool.or_eq_true, Bool.and_eq_true,
        beq_iff_eq] at h
      by_cases hxsib : x = sib
      · simp only [insert_child_below, if_pos hxsib]
        apply stackedDirectlyBelow_cons
        rcases h with ⟨hx, hy⟩ | h
        · subst hx; subst hy; simp [stackedDirectlyBelow]
        · exact stackedDirectlyBelow_cons _ _ _ _ h
      · simp only [insert_child_below, if_neg hxsib]
        rcases h with ⟨hx, hy⟩ | h
        · subst hx; subst hy
          have hysib : ¬(y = sib) := fun hh => hsib hh.symm
          simp only [insert_child_below, if_neg hysib]
          simp [stackedDirectlyBelow]
        · exact stackedDirectlyBelow_cons _ _ _ _ (ih h)

theorem stackedDirectlyBelow_erase (s c x : Nat) (l : List Nat)
    (hxs : x ≠ s) (hxc : x ≠ c) (h : stackedDirectlyBelow s c l = true) :
    stackedDirectlyBelow s c (l.erase x) = true := by
  induction l with
  | nil => simp [stackedDirectlyBelow] at h
  | cons a as ih =>
    cases as with
    | nil => simp [stackedDirectlyBelow] at h
    | cons y r =>
      simp only [stackedDirectlyBelow, Bool.or_eq_true, Bool.and_eq_true,
        beq_iff_eq] at h
      by_cases hax : a = x
      · subst hax
        rw [List.erase_cons_head]
        rcases h with ⟨has, _⟩ | h
        · exact absurd has hxs
        · exact h
      · rw [List.erase_cons_tail (by simpa using fun hh : a = x => hax hh)]
        rcases h with ⟨has, hyc⟩ | h
        · subst has; subst hyc
          have hyx : ¬(y = x) := fun hh => hxc hh.symm
          rw [List.erase_cons_tail (by simpa using hyx)]
          simp [stackedDirectlyBelow]
        · exact stackedDirectlyBelow_cons _ _ _ _ (ih h)

theorem mem_restackStep (b : Nat) (ch : List Nat) (r : RestackRecord)
    (hb : b ∈ ch) (hbs : r.shadow_clone ≠ some b) : b ∈ restackStep ch r := by
  cases hsh : r.shadow_clone with
  | none => simpa [restackStep, hsh] using hb
  | some u =>
    have hbu : b ≠ u := fun hh => hbs (by rw [hsh, hh])
    simp only [restackStep, hsh, set_child_below_sibling]
    exact mem_insert_child_below_of_mem _ _ _ _
      ((List.mem_erase_of_ne hbu).mpr hb)

theorem restack_fold_preserves (s c : Nat) (rest : List RestackRecord)
    (ch : List Nat) (h : stackedDirectlyBelow s c ch = true)
    (hc : ∀ r ∈ rest, r.clone ≠ c)
    (hsn : ∀ r ∈ rest, ∀ u, r.shadow_clone = some u → u ≠ s ∧ u ≠ c) :
    stackedDirectlyBelow s c (List.foldl restackStep ch rest) = true := by
  induction rest generalizing ch with
  | nil => simpa using h
  | cons r rest ih =>
    simp only [List.foldl_cons]
    apply ih
    · cases hsh : r.shadow_clone with
      | none => simpa [restackStep, hsh] using h
      | some u =>
        obtain ⟨hus, huc⟩ := hsn r (List.mem_cons_self _ _) u hsh
        have hrc : r.clone ≠ c := hc r (List.mem_cons_self _ _)
        simp only [restackStep, hsh, set_child_below_sibling]
        exact stackedDirectlyBelow_insert_other _ _ _ _ _ hrc
          (stackedDirectlyBelow_erase _ _ _ _ hus huc h)
    · exact fun r' hr' => hc r' (List.mem_cons_of_mem _ hr')
    · exact fun r' hr' => hsn r' (List.mem_cons_of_mem _ hr')

theorem restack_establishes (r : RestackRecord) (s : Nat)
    (hs : r.shadow_clone = some s) (records : List RestackRecord) :
    ∀ children, r ∈ records →
    (∀ rr ∈ records, rr.clone ∈ children) →
    (∀ ra ∈ records, ∀ rb ∈ records, ra.shadow_clone ≠ some rb.clone) →
    (records.map RestackRecord.clone).Nodup →
    (records.filterMap RestackRecord.shadow_clone).Nodup →
    stackedDirectlyBelow s r.clone (restackedHandler records children) = true := by
  induction records with
  | nil => intro children hr; exact absurd hr (List.not_mem_nil r)
  | cons r0 rest ih =>
    intro children hr hcl hsc hclnd hshnd
    rw [List.map_cons, List.nodup_cons] at hclnd
    simp only [restackedHandler, List.foldl_cons]
    rcases List.mem_cons.mp hr with hr0 | hrrest
    · subst hr0
      have hscc : s ≠ r.clone := fun hh =>
        hsc r (List.mem_cons_self _ _) r (List.mem_cons_self _ _) (hh ▸ hs)
      have hc0 : r.clone ∈ children.erase s :=
        (List.mem_erase_of_ne fun hh => hscc hh.symm).mpr
          (hcl r (List.mem_cons_self _ _))
      have est : stackedDirectlyBelow s r.clone (restackStep children r) = true := by
        simp only [restackStep, hs, set_child_below_sibling]
        exact stackedDirectlyBelow_insert_self _ _ _ hc0
      refine restack_fold_preserves _ _ _ _ est ?_ ?_
      · intro r' hr' hh
        exact hclnd.1 (hh ▸ List.mem_map_of_mem RestackRecord.clone hr')
      · intro r' hr' u hu
        constructor
        · rw [List.filterMap_cons, hs, List.nodup_cons] at hshnd
          intro hh
          exact hshnd.1 (hh ▸ List.mem_filterMap.mpr ⟨r', hr', hu⟩)
        · intro hh
          exact hsc r' (List.mem_cons_of_mem _ hr') r (List.mem_cons_self _ _)
            (hh ▸ hu)
    · refine ih _ hrrest ?_ ?_ hclnd.2 ?_
      · intro r' hr'
        exact mem_restackStep _ _ _ (hcl r' (List.mem_cons_of_mem _ hr'))
          (hsc r0 (List.mem_cons_self _ _) r' (List.mem_cons_of_mem _ hr'))
      · intro ra hra rb hrb
        exact hsc ra (List.mem_cons_of_mem _ hra) rb (List.mem_cons_of_mem _ hrb)
      · cases hsh0 : r0.shadow_clone with
        | none => simpa [List.filterMap_cons, hsh0] using hshnd
        | some u =>
          rw [List.filterMap_cons, hsh0, List.nodup_cons] at hshnd
          exact hshnd.2

/-- C1: when `_addWindow` runs for a preview of a window that should have
rounded corners and has a present shadow actor (and the call is the
`_init` one, not a dialog-attachment call), exactly one
`OverviewShadowActor` clone exists among the preview's children, and it
is stacked immediately below the preview's `windowContainer` content node
(extension.ts:126-146). -/
theorem preview_shadow_clone_invariant (args : AddWindowArgs)
    (windowContainer : Nat) (st : PreviewState)
    (h1 : args.stackUndefined = false) (h2 : args.fromDialogPath = false)
    (h3 : args.hasShadow = true) (h4 : args.shouldHaveRoundedCorners = true)
    (h5 : windowContainer ∈ st.children)
    (h6 : args.shadowCloneId ∉ st.children) :
    (addWindow args windowContainer st).children.count args.shadowCloneId = 1 ∧
      stackedDirectlyBelow args.shadowCloneId windowContainer
        (addWindow args windowContainer st).children = true := by
  simp only [addWindow, h1, h2, h3, h4, Bool.or_self, Bool.and_self,
    Bool.not_true, Bool.false_eq_true, if_false]
  exact ⟨count_insert_child_below _ _ _ h6 h5,
    stackedDirectlyBelow_insert_self _ _ _ h5⟩

/-- C1 witness: a fresh preview with children `[1, 2, 3]`, content node
`2`, gaining shadow clone `9`. -/
theorem preview_shadow_clone_invariant_witness :
    ((⟨false, false, true, true, 9⟩ : AddWindowArgs).stackUndefined = false) ∧
    ((⟨false, false, true, true, 9⟩ : AddWindowArgs).fromDialogPath = false) ∧
    ((⟨false, false, true, true, 9⟩ : AddWindowArgs).hasShadow = true) ∧
    ((⟨false, false, true, true, 9⟩ : AddWindowArgs).shouldHaveRoundedCorners = true) ∧
    (2 ∈ (⟨[1, 2, 3], false, false⟩ : PreviewState).children) ∧
    ((⟨false, false, true, true, 9⟩ : AddWindowArgs).shadowCloneId ∉
      (⟨[1, 2, 3], false, false⟩ : PreviewState).children) ∧
    ((addWindow ⟨false, false, true, true, 9⟩ 2
        ⟨[1, 2, 3], false, false⟩).children.count
      (⟨false, false, true, true, 9⟩ : AddWindowArgs).shadowCloneId = 1 ∧
      stackedDirectlyBelow
        (⟨false, false, true, true, 9⟩ : AddWindowArgs).shadowCloneId 2
        (addWindow ⟨false, false, true, true, 9⟩ 2
          ⟨[1, 2, 3], false, false⟩).children = true) :=
  ⟨rfl, rfl, rfl, rfl, by decide, by decide,
    preview_shadow_clone_invariant ⟨false, false, true, true, 9⟩ 2
      ⟨[1, 2, 3], false, false⟩ rfl rfl rfl rfl (by decide) (by decide)⟩

/-- C4: for an attached dialog no shadow clone is created in the overview
context: in the primary variant the patched `_addWindow` returns without
creating anything when called on the dialog-attachment call path
(extension.ts:95-102), and in the alternative variant the overview
geometry operation is a no-op for an attached dialog
(part_000:413-426). -/
theorem attached_dialog_no_shadow (sp : ℚ) (args : AddWindowArgs)
    (windowContainer : Nat) (st : PreviewState) (inp : P000AllocInput)
    (g : WinGeomP000) (hd : args.fromDialogPath = true)
    (hm : inp.source_meta_win = some g) (hg : g.is_attached_dialog = true) :
    addWindow args windowContainer st = st ∧
      OverviewShadowActor.vfunc_allocate_p000 sp inp = none := by
  constructor
  · simp [addWindow, hd]
  · simp only [OverviewShadowActor.vfunc_allocate_p000, hm]
    cases inp.window_container_present <;> simp [hg]

/-- C4 witness: a dialog-path `_addWindow` call and an attached-dialog
allocation at concrete inputs. -/
theorem attached_dialog_no_shadow_witness :
    ((⟨false, true, true, true, 9⟩ : AddWindowArgs).fromDialogPath = true) ∧
    ((⟨some ⟨true, 4, 5, 6, 7⟩, true, 0, 0, 2, 3, 1⟩ :
      P000AllocInput).source_meta_win = some ⟨true, 4, 5, 6, 7⟩) ∧
    ((⟨true, 4, 5, 6, 7⟩ : WinGeomP000).is_attached_dialog = true) ∧
    (addWindow ⟨false, true, true, true, 9⟩ 2 ⟨[1, 2, 3], false, false⟩ =
        ⟨[1, 2, 3], false, false⟩ ∧
      OverviewShadowActor.vfunc_allocate_p000 80
        ⟨some ⟨true, 4, 5, 6, 7⟩, true, 0, 0, 2, 3, 1⟩ = none) :=
  ⟨rfl, rfl, rfl,
    attached_dialog_no_shadow 80 ⟨false, true, true, true, 9⟩ 2
      ⟨[1, 2, 3], false, false⟩ ⟨some ⟨true, 4, 5, 6, 7⟩, true, 0, 0, 2, 3, 1⟩
      ⟨true, 4, 5, 6, 7⟩ rfl rfl rfl⟩

/-- C8: after any sequence of restack events during a workspace-switch
session — i.e. after the `restacked` handler (extension.ts:160-176) runs
on whatever z-order the compositor produced — every record's live shadow
clone sits immediately below its host clone and both remain attached to
the workspace group's children. -/
theorem restack_ordering_invariant (records : List RestackRecord)
    (children : List Nat)
    (hcl : ∀ r ∈ records, r.clone ∈ children)
    (hsc : ∀ ra ∈ records, ∀ rb ∈ records, ra.shadow_clone ≠ some rb.clone)
    (hclnd : (records.map RestackRecord.clone).Nodup)
    (hshnd : (records.filterMap RestackRecord.shadow_clone).Nodup)
    (r : RestackRecord) (hr : r ∈ records) (s : Nat)
    (hs : r.shadow_clone = some s) :
    stackedDirectlyBelow s r.clone (restackedHandler records children) = true ∧
      s ∈ restackedHandler records children ∧
      r.clone ∈ restackedHandler records children := by
  have main := restack_establishes r s hs records children hr hcl hsc hclnd hshnd
  obtain ⟨hsm, hcm⟩ := stackedDirectlyBelow_mem _ _ _ main
  exact ⟨main, hsm, hcm⟩

/-- C8 witness: two shadowed records and one bare record on a scrambled
z-order. -/
theorem restack_ordering_invariant_witness :
    (∀ r ∈ [(⟨2, some 10⟩ : RestackRecord), ⟨4, some 20⟩, ⟨6, none⟩],
      r.clone ∈ [10, 4, 2, 20, 6]) ∧
    (∀ ra ∈ [(⟨2, some 10⟩ : RestackRecord), ⟨4, some 20⟩, ⟨6, none⟩],
      ∀ rb ∈ [(⟨2, some 10⟩ : RestackRecord), ⟨4, some 20⟩, ⟨6, none⟩],
      ra.shadow_clone ≠ some rb.clone) ∧
    (([(⟨2, some 10⟩ : RestackRecord), ⟨4, some 20⟩, ⟨6, none⟩].map
      RestackRecord.clone).Nodup) ∧
    (([(⟨2, some 10⟩ : RestackRecord), ⟨4, some 20⟩, ⟨6, none⟩].filterMap
      RestackRecord.shadow_clone).Nodup) ∧
    ((⟨2, some 10⟩ : RestackRecord) ∈
      [(⟨2, some 10⟩ : RestackRecord), ⟨4, some 20⟩, ⟨6, none⟩]) ∧
    ((⟨2, some 10⟩ : RestackRecord).shadow_clone = some 10) ∧
    (stackedDirectlyBelow 10 (⟨2, some 10⟩ : RestackRecord).clone
        (restackedHandler [⟨2, some 10⟩, ⟨4, some 20⟩, ⟨6, none⟩]
          [10, 4, 2, 20, 6]) = true ∧
      10 ∈ restackedHandler [⟨2, some 10⟩, ⟨4, some 20⟩, ⟨6, none⟩]
        [10, 4, 2, 20, 6] ∧
      (⟨2, some 10⟩ : RestackRecord).clone ∈
        restackedHandler [⟨2, some 10⟩, ⟨4, some 20⟩, ⟨6, none⟩]
          [10, 4, 2, 20, 6]) :=
  ⟨by decide, by decide, by decide, by decide, by decide, rfl,
    restack_ordering_invariant [⟨2, some 10⟩, ⟨4, some 20⟩, ⟨6, none⟩]
      [10, 4, 2, 20, 6] (by decide) (by decide) (by decide) (by decide)
      ⟨2, some 10⟩ (by decide) 10 rfl⟩

theorem length_prepareGroupShadowClones (sp : ℚ)
    (records : List WsWindowRecord) :
    (prepareGroupShadowClones sp records).length =
      records.countP qualifiesForShadowClone := by
  induction records with
  | nil => rfl
  | cons r rest ih =>
    by_cases hq : qualifiesForShadowClone r = true
    · simp [prepareGroupShadowClones, List.filterMap_cons,
        prepareRecordShadowClone, hq, List.countP_cons, ih,
        prepareGroupShadowClones] at ih ⊢
    · simp [prepareGroupShadowClones, List.filterMap_cons,
        prepareRecordShadowClone, hq, List.countP_cons,
        prepareGroupShadowClones] at ih ⊢
      omega

/-- C5 counterexample: in the alternative variant, destroying a preview
clone while the overview session is NOT closing
(`_leavingOverview = false`) leaves the window's rounded-corner effect
disabled — the claim demands it be re-enabled exactly then — and the
handler does not destroy the shadow clone either. -/
theorem overview_destroy_reenable_counterexample :
    ¬((cloneDestroyHandler_p000 false
        ⟨true, true, false, true⟩).rounded_effect_enabled = true) ∧
    ¬((cloneDestroyHandler_p000 false
        ⟨true, true, false, true⟩).shadow_actor_alive = false) := by
  decide

/-- C5 (amended): on destruction of a preview whose shadow clone is
active, the primary variant destroys the shadow clone, clears the first
child's effects and disconnects the preview's signals, leaving the
window's own rounded-corner effect unchanged; the alternative variant
clears the clone's effects and disconnects its signals without destroying
the shadow clone, and re-enables the window's rounded-corner effect
exactly when the overview session IS in the process of closing. -/
theorem overview_destroy_teardown (stP : OverviewWindowState)
    (stC : P000WindowState) (lv : Bool) :
    previewDestroyHandler stP =
      ⟨false, false, stP.rounded_effect_enabled, false⟩ ∧
    cloneDestroyHandler_p000 lv stC =
      ⟨stC.shadow_actor_alive, false, lv || stC.rounded_effect_enabled,
        false⟩ := by
  refine ⟨rfl, ?_⟩
  cases lv <;> simp [cloneDestroyHandler_p000]

/-- C6: during `Preparing`, for every workspace group a shadow clone is
created for a window record exactly when the underlying window has a
shadow actor and its rounded-corner effect is present and enabled
(extension.ts:182-245); the number created equals the number of
qualifying records, and in a session of 2 monitors × 2 groups × 3 windows
of which 2 qualify, every group iteration creates exactly 2. -/
theorem prepare_creates_iff_qualifies (sp : ℚ)
    (records : List WsWindowRecord) :
    ((prepareGroupShadowClones sp records).length =
      records.countP qualifiesForShadowClone) ∧
    (∀ r ∈ records, ((prepareRecordShadowClone sp r).isSome = true ↔
      (r.hasShadow = true ∧ r.roundedCornersEffectEnabled = some true))) ∧
    (∀ m ∈ sampleWsSession, ∀ grp ∈ m,
      (prepareGroupShadowClones 80 grp).length = 2) := by
  refine ⟨length_prepareGroupShadowClones sp records, ?_, by decide⟩
  intro r _
  by_cases hq : qualifiesForShadowClone r = true
  · simp only [prepareRecordShadowClone, if_pos hq, Option.isSome_some,
      true_iff]
    simpa [qualifiesForShadowClone, Bool.and_eq_true, beq_iff_eq] using hq
  · simp only [prepareRecordShadowClone, if_neg hq, Option.isSome_none,
      Bool.false_eq_true, false_iff]
    intro hcontra
    exact hq (by simp [qualifiesForShadowClone, Bool.and_eq_true,
      beq_iff_eq, hcontra.1, hcontra.2])

/-- C7: when a workspace-switch session finishes, the patched
`_finishWorkspaceSwitch` (extension.ts:250-263) destroys every session
shadow clone before delegating to the default teardown (the state handed
to the delegate already has none left), and after the delegated teardown
fires the per-group destroy handlers every `restacked` subscription is
released — no session-tagged shadow clone outlives its presentation
context. -/
theorem finish_destroys_before_delegate (monitors : List (List WsGroupState)) :
    finishWorkspaceSwitch monitors =
      origFinishWorkspaceSwitch (destroySessionShadowClones monitors) ∧
    noShadowClonesLeft (destroySessionShadowClones monitors) = true ∧
    noShadowClonesLeft (finishWorkspaceSwitch monitors) = true ∧
    noRestackSubsLeft (finishWorkspaceSwitch monitors) = true := by
  refine ⟨rfl, ?_, ?_, ?_⟩
  · simp [noShadowClonesLeft, destroySessionShadowClones, List.all_eq_true,
      List.mem_map]
  · simp [noShadowClonesLeft, finishWorkspaceSwitch,
      origFinishWorkspaceSwitch, destroySessionShadowClones,
      List.all_eq_true, List.mem_map]
  · simp [noRestackSubsLeft, finishWorkspaceSwitch,
      origFinishWorkspaceSwitch, List.all_eq_true, List.mem_map]

/-- C9: invoking the destroy cascade twice yields the same state as
invoking it once — no further subscription release happens — and on an
already-destroyed handle (`_shadow_clone` absent) the cascade is exactly
the identity (and, being total, it does not throw). -/
theorem destroy_cascade_idempotent (h : ShadowCloneHandle) :
    destroyCascade (destroyCascade h) = destroyCascade h ∧
    (destroyCascade (destroyCascade h)).releases =
      (destroyCascade h).releases ∧
    destroyCascade ⟨none, h.releases⟩ = ⟨none, h.releases⟩ := by
  cases hsc : h.shadow_clone <;> simp [destroyCascade, hsc]

/-- C6 witness: the creation count and guard at the concrete
2-monitor × 2-group × 3-window session. -/
theorem prepare_creates_iff_qualifies_witness :
    ((prepareGroupShadowClones 80 sampleWsGroup).length =
      sampleWsGroup.countP qualifiesForShadowClone) ∧
    (∀ r ∈ sampleWsGroup, ((prepareRecordShadowClone 80 r).isSome = true ↔
      (r.hasShadow = true ∧ r.roundedCornersEffectEnabled = some true))) ∧
    (∀ m ∈ sampleWsSession, ∀ grp ∈ m,
      (prepareGroupShadowClones 80 grp).length = 2) :=
  prepare_creates_iff_qualifies 80 sampleWsGroup
